import Mathlib

/-!
Verification of the `surreal-builders` repository (package `surreal-query`).

The development shallowly embeds the two builders of the package:
the filter query builder of `src/surrealQuery.ts` (class `SurrealQuery`)
and the schema definition builder of `src/surrealTables.ts`
(`fieldType`, `TableBuilder`, `defineSchema`).

Strings are modelled as `List Char` (`Str`), so that the JavaScript string
operations used by the source (`trimEnd`, template interpolation, `join`,
regular-expression suffix stripping, truthiness of strings) become plain
list functions amenable to both evaluation and induction.
-/

/-- Character list model of a JavaScript string. -/
abbrev Str := List Char

/-- The character list of a Lean string literal. -/
def lit (s : String) : Str := s.data

/-- JavaScript `String.prototype.trimEnd`: remove trailing whitespace. -/
def trimRight (s : Str) : Str := (s.reverse.dropWhile Char.isWhitespace).reverse

/-- JavaScript `String.prototype.trimStart`: remove leading whitespace. -/
def trimLeft (s : Str) : Str := s.dropWhile Char.isWhitespace

/-- JavaScript `String.prototype.trim`. -/
def trimBoth (s : Str) : Str := trimLeft (trimRight s)

/-- JavaScript truthiness of an optional string field: `undefined` and the
empty string are falsy, every other string is truthy. -/
def truthy : Option Str → Bool
  | none => false
  | some s => !s.isEmpty

/-- JavaScript `Array.prototype.join(sep)`. -/
def joinWith (sep : Str) : List Str → Str
  | [] => []
  | [x] => x
  | x :: y :: xs => x ++ sep ++ joinWith sep (y :: xs)

/-- Rendering of a JavaScript integer by a template literal or
`JSON.stringify` (the repository only ever stores integral numbers). -/
def intStr (n : Int) : Str := (toString n).data

/-- The `FilterOperator` union type of `src/types/index.ts`:
`"=" | ">" | "<" | ">=" | "<=" | "!="`. -/
inductive FilterOperator where
  | eq | gt | lt | ge | le | ne
deriving DecidableEq, Repr

/-- The operator text interpolated into a filter clause. -/
def FilterOperator.render : FilterOperator → Str
  | .eq => lit "="
  | .gt => lit ">"
  | .lt => lit "<"
  | .ge => lit ">="
  | .le => lit "<="
  | .ne => lit "!="

/-- The `"AND" | "OR"` union type of the `logicalOperator` parameter. -/
inductive Conj where
  | AND | OR
deriving DecidableEq, Repr

/-- The conjunction text interpolated into a filter clause. -/
def Conj.render : Conj → Str
  | .AND => lit "AND"
  | .OR => lit "OR"

/-- A primitive JSON value stored in the `data` record of the query builder.
`JSON.stringify` output is modelled for the primitive values the package
stores; string escaping covers the quote, backslash and the common control
characters. -/
inductive JVal where
  | str (s : Str)
  | num (n : Int)
  | bool (b : Bool)
  | null
deriving DecidableEq, Repr

/-- `JSON.stringify` escaping of one character inside a string value. -/
def jsonEscape (c : Char) : Str :=
  if c = '"' then ['\\', '"']
  else if c = '\\' then ['\\', '\\']
  else if c = '\n' then ['\\', 'n']
  else if c = '\t' then ['\\', 't']
  else if c = '\r' then ['\\', 'r']
  else [c]

/-- `JSON.stringify` of a primitive value. -/
def JVal.render : JVal → Str
  | .str s => ['"'] ++ (s.map jsonEscape).flatten ++ ['"']
  | .num n => intStr n
  | .bool true => lit "true"
  | .bool false => lit "false"
  | .null => lit "null"

/-- `JSON.stringify` of a record: compact output, keys in insertion order
(JavaScript objects with string keys enumerate in insertion order). -/
def jsonObj (d : List (Str × JVal)) : Str :=
  ['\x7b'] ++
    joinWith (lit ",")
      (d.map fun kv => ['"'] ++ (kv.1.map jsonEscape).flatten ++ ['"', ':'] ++ kv.2.render) ++
  ['\x7d']

/-- The operation union type accepted by `buildQuery` / `getQueryPayload`. -/
inductive Operation where
  | SELECT | CREATE | UPDATE | DELETE
deriving DecidableEq, Repr

/-- The private state of a `SurrealQuery` instance
(`src/surrealQuery.ts`, lines 46-53).  `nspace` stands for the `namespace`
field (a reserved word in Lean); `data` holds the record passed to
`setData`, with its values as primitive JSON values. -/
structure SurrealQuery where
  table : Str
  filters : List Str
  sortField : Option Str
  limitCount : Option Int
  nspace : Option Str
  db_name : Option Str
  data : Option (List (Str × JVal))
deriving DecidableEq, Repr

/-- The payload returned by `getQueryPayload`. -/
structure QueryPayload where
  nspace : Str
  db_name : Str
  query : Str
deriving DecidableEq, Repr

/-- The `SurrealQuery` constructor (lines 60-66): rejects an empty (falsy)
table name, stores the `namespace` / `db_name` params unchecked. -/
def newSurrealQuery (table : Str) (nspace db_name : Option Str) :
    Except Str SurrealQuery :=
  if table.isEmpty then .error (lit "Table name cannot be empty")
  else .ok ⟨table, [], none, none, nspace, db_name, none⟩

/-- `setNamespaceAndDb` (lines 75-81). -/
def SurrealQuery.setNamespaceAndDb (s : SurrealQuery) (nspace db_name : Str) :
    Except Str SurrealQuery :=
  if nspace.isEmpty then .error (lit "Namespace cannot be empty")
  else if db_name.isEmpty then .error (lit "Database name cannot be empty")
  else .ok { s with nspace := some nspace, db_name := some db_name }

/-- `setDb` (lines 89-93). -/
def SurrealQuery.setDb (s : SurrealQuery) (db_name : Str) :
    Except Str SurrealQuery :=
  if db_name.isEmpty then .error (lit "Database name cannot be empty")
  else .ok { s with db_name := some db_name }

/-- `setNamespace` (lines 101-105). -/
def SurrealQuery.setNamespace (s : SurrealQuery) (nspace : Str) :
    Except Str SurrealQuery :=
  if nspace.isEmpty then .error (lit "Namespace cannot be empty")
  else .ok { s with nspace := some nspace }

/-- The clause string pushed by `filter` (lines 124-130): the template
literals interpolate field, operator, value and conjunction verbatim,
with the value between two single quotes; an omitted `logicalOperator`
defaults to `AND`. -/
def renderClause (field : Str) (operator : FilterOperator) (value : Str)
    (logicalOperator : Option Conj) : Str :=
  field ++ lit " " ++ operator.render ++ lit " \x27" ++ value ++ lit "\x27 " ++
    (match logicalOperator with
     | some c => c.render
     | none => lit "AND")

/-- `filter` (lines 116-133): rejects an empty (falsy) field, otherwise
appends the interpolated clause string. -/
def SurrealQuery.filter (s : SurrealQuery) (field : Str) (value : Str)
    (operator : FilterOperator) (logicalOperator : Option Conj) :
    Except Str SurrealQuery :=
  if field.isEmpty then .error (lit "Field for filtering cannot be empty")
  else .ok { s with filters := s.filters ++ [renderClause field operator value logicalOperator] }

/-- `sort` (lines 141-145). -/
def SurrealQuery.sort (s : SurrealQuery) (field : Str) :
    Except Str SurrealQuery :=
  if field.isEmpty then .error (lit "Field for sorting cannot be empty")
  else .ok { s with sortField := some field }

/-- `limit` (lines 153-157). -/
def SurrealQuery.limit (s : SurrealQuery) (count : Int) :
    Except Str SurrealQuery :=
  if count ≤ 0 then .error (lit "Limit must be greater than zero")
  else .ok { s with limitCount := some count }

/-- `setData` (lines 165-168): stores the record with no validation. -/
def SurrealQuery.setData (s : SurrealQuery) (data : List (Str × JVal)) :
    SurrealQuery :=
  { s with data := some data }

/-- `cleanFilters` (lines 170-180): the regular expression `(AND|OR)$`
matches `AND` or `OR` only at the very end of the string; on a match the
matched token is sliced off and the result is `trimEnd`-ed. -/
def cleanFilters (filter : Str) : Str :=
  if lit "AND" <:+ filter then trimRight (filter.take (filter.length - 3))
  else if lit "OR" <:+ filter then trimRight (filter.take (filter.length - 2))
  else filter

/-- `buildQuery` (lines 188-241).  The namespace/database guard is the
JavaScript truthiness test `!this.namespace || !this.db_name`; the
`ORDER BY` and `LIMIT` guards are the truthiness tests `if (this.sortField)`
and `if (this.limitCount)` (empty string and `0` are falsy). -/
def SurrealQuery.buildQuery (s : SurrealQuery) (operation : Operation) :
    Except Str Str :=
  if !truthy s.nspace || !truthy s.db_name then
    .error (lit "Namespace and Database must be provided before building a query")
  else
    match operation with
    | .SELECT =>
        .ok ((lit "SELECT * FROM " ++ s.table) ++
          (if s.filters.length > 0 then
            cleanFilters (lit " WHERE " ++ joinWith (lit " ") s.filters)
          else []) ++
          (match s.sortField with
           | some f => if f.isEmpty then [] else lit " ORDER BY " ++ f
           | none => []) ++
          (match s.limitCount with
           | some n => if n = 0 then [] else lit " LIMIT " ++ intStr n
           | none => []))
    | .CREATE =>
        match s.data with
        | none => .error (lit "No data provided for CREATE operation")
        | some d => .ok (lit "CREATE " ++ s.table ++ lit " CONTENT " ++ jsonObj d)
    | .UPDATE =>
        match s.data with
        | none => .error (lit "No data provided for UPDATE operation")
        | some d =>
            .ok (lit "UPDATE " ++ s.table ++ lit " CONTENT " ++ jsonObj d ++
              (if s.filters.length > 0 then
                cleanFilters (lit " WHERE " ++ joinWith (lit " ") s.filters)
              else []))
    | .DELETE =>
        .ok (lit "DELETE FROM " ++ s.table ++
          (if s.filters.length > 0 then
            cleanFilters (lit " WHERE " ++ joinWith (lit " ") s.filters)
          else []))

/-- `getQueryPayload` (lines 249-265): builds the query, re-validates the
namespace/database truthiness, and returns the payload triple. -/
def SurrealQuery.getQueryPayload (s : SurrealQuery) (operation : Operation) :
    Except Str QueryPayload :=
  match s.buildQuery operation with
  | .error e => .error e
  | .ok query =>
      match s.nspace, s.db_name with
      | some a, some b =>
          if a.isEmpty || b.isEmpty then
            .error (lit "Namespace and Database must be provided before building a query")
          else .ok ⟨a, b, query⟩
      | _, _ => .error (lit "Namespace and Database must be provided before building a query")

/-! ## Schema definition builder (`src/surrealTables.ts`) -/

/-- The `TABLETYPE` enum. -/
inductive TABLETYPE where
  | SCHEMAFULL | SCHEMALESS
deriving DecidableEq, Repr

/-- The string value of a `TABLETYPE` member. -/
def TABLETYPE.render : TABLETYPE → Str
  | .SCHEMAFULL => lit "SCHEMAFULL"
  | .SCHEMALESS => lit "SCHEMALESS"

/-- The `FieldDefinition` record type of `src/surrealTables.ts`
(`type`, optional `refTable`, optional `optional` flag, optional nested
`itemType`, optional `flexible` flag).  The boolean flags model JavaScript
truthiness (`undefined` and `false` are both falsy), so they are plain
`Bool`s. -/
inductive FieldDefinition where
  | mk (type : Str) (refTable : Option Str) (optional : Bool)
      (itemType : Option FieldDefinition) (flexible : Bool)

/-- The `type` member of a field definition. -/
def FieldDefinition.type : FieldDefinition → Str
  | .mk t _ _ _ _ => t

/-- The `refTable` member of a field definition. -/
def FieldDefinition.refTable : FieldDefinition → Option Str
  | .mk _ r _ _ _ => r

/-- The `optional` member of a field definition. -/
def FieldDefinition.optional : FieldDefinition → Bool
  | .mk _ _ o _ _ => o

/-- The `itemType` member of a field definition. -/
def FieldDefinition.itemType : FieldDefinition → Option FieldDefinition
  | .mk _ _ _ i _ => i

/-- The `flexible` member of a field definition. -/
def FieldDefinition.flexible : FieldDefinition → Bool
  | .mk _ _ _ _ f => f

namespace fieldType

/-- `fieldType.id(refTable?)`. -/
def id (refTable : Option Str) : FieldDefinition :=
  .mk (lit "id") refTable false none false

/-- `fieldType.string()`. -/
def string : FieldDefinition := .mk (lit "string") none false none false

/-- `fieldType.number()`. -/
def number : FieldDefinition := .mk (lit "number") none false none false

/-- `fieldType.boolean()`. -/
def boolean : FieldDefinition := .mk (lit "boolean") none false none false

/-- `fieldType.array(itemType)`. -/
def array (itemType : FieldDefinition) : FieldDefinition :=
  .mk (lit "array") none false (some itemType) false

/-- `fieldType.object(flexible = false)`. -/
def object (flexible : Bool) : FieldDefinition :=
  .mk (lit "object") none false none flexible

/-- `fieldType.optional(field)`: the spread `{ ...field, optional: true }`. -/
def optional : FieldDefinition → FieldDefinition
  | .mk t r _ i f => .mk t r true i f

end fieldType

/-- One iteration of `buildFields` (lines 90-112), producing the
`DEFINE FIELD` line pushed for one `[name, field]` entry.  The `let`
bindings mirror the statements of the source: `type` is first the trimmed
type tag, is rewrapped as `option<...>` when the `optional` flag is truthy,
and is then overwritten with `array<...>` when the field is an array with a
truthy `itemType`; `ref` is controlled by the truthiness of `refTable`
alone; the object branch selects `flexibleType`. -/
def buildFieldLine (table : Str) (name : Str) (field : FieldDefinition) : Str :=
  let type0 := trimRight field.type
  let type1 := if field.optional then lit "option<" ++ trimRight type0 ++ lit ">" else type0
  let type2 :=
    match field.itemType with
    | some it => if field.type = lit "array" then lit "array<" ++ trimRight it.type ++ lit ">" else type1
    | none => type1
  let ref :=
    match field.refTable with
    | some r => if r.isEmpty then [] else lit " REFERENCES TABLE " ++ r
    | none => []
  let flexibleType := if field.flexible then lit "FLEXIBLE TYPE object" else trimRight type2
  lit "DEFINE FIELD " ++ name ++ lit " ON TABLE " ++ table ++ lit " TYPE " ++
    (if field.type = lit "object" then trimRight flexibleType else trimRight type2) ++
    trimRight ref ++ lit ";"

/-- `buildFields` (lines 90-112): one `DEFINE FIELD` line per entry of the
field map, in insertion order (`Object.entries` order). -/
def buildFields (table : Str) (fields : List (Str × FieldDefinition)) : List Str :=
  fields.map fun nf => buildFieldLine table nf.1 nf.2

/-- The state of a `TableBuilder` instance (lines 69-74). -/
structure TableBuilder where
  fields : List Str
  indexes : List Str
  table : Str
  type : TABLETYPE
deriving DecidableEq, Repr

/-- `defineSchema` / the `TableBuilder` constructor (lines 80-84, 188-194):
stores the table and schema type and immediately renders the field map. -/
def defineSchema (table : Str) (schemaType : TABLETYPE)
    (fields : List (Str × FieldDefinition)) : TableBuilder :=
  ⟨buildFields table fields, [], table, schemaType⟩

/-- The `string | string[]` union of the `fields` parameter of `index`. -/
inductive IndexFieldsArg where
  | one (s : Str)
  | many (l : List Str)
deriving DecidableEq, Repr

/-- `TableBuilder.index` (lines 127-140): joins an array argument with
`", "`, trims a string argument, and pushes the `DEFINE INDEX` line.  The
method performs no validation of its arguments. -/
def TableBuilder.index (b : TableBuilder) (indexName : Str)
    (fields : IndexFieldsArg) (unique : Bool) : TableBuilder :=
  let fieldList :=
    match fields with
    | .many l => joinWith (lit ", ") l
    | .one s => trimRight s
  let uniqueStr := if unique then lit " UNIQUE" else []
  { b with indexes := b.indexes ++
      [lit "DEFINE INDEX " ++ indexName ++ lit " ON TABLE " ++ b.table ++
        lit " FIELDS " ++ fieldList ++ uniqueStr ++ lit ";"] }

/-- `TableBuilder.generate` (lines 146-154). -/
def TableBuilder.generate (b : TableBuilder) : Str :=
  lit "DEFINE TABLE IF NOT EXISTS " ++ b.table ++ lit " " ++ b.type.render ++ lit ";\n" ++
    joinWith (lit "\n") (b.fields.map trimBoth) ++ lit "\n" ++
    joinWith (lit "\n") (b.indexes.map trimBoth)

/-! ## The string-literal-typed schema builder variant

The repository declares the raw token type `SurrealFieldTypes`
(`"string" | "int" | ... | record(...)`) in `src/types/index.ts`, but the
builder consuming it is not part of the sources; only this declaration is.
Its validation rule is therefore modelled from the specification. -/

/-- A character allowed inside the identifier of a `record(<identifier>)`
token. -/
def isIdentChar (c : Char) : Bool := c.isAlphanum || c = '_'

/-- Modelled from the spec: a raw type token of the exact shape
`record(<identifier>)` with a non-empty identifier between the
parentheses. -/
def recordForm (token : Str) : Bool :=
  (lit "record(" <+: token) &&
    (let rest := token.drop 7
     rest.getLast? = some ')' && !rest.dropLast.isEmpty && rest.dropLast.all isIdentChar)

/-- Modelled from the spec: the string-literal-typed schema builder variant
(absent from `src/`; only its `SurrealFieldTypes` declaration is present)
validates each raw field-type token: any token beginning with `record`
must match exactly `record(<identifier>)`, and otherwise the builder fails
with a descriptive error naming the offending field. -/
def checkFieldTypeToken (fieldName : Str) (token : Str) : Except Str Unit :=
  if lit "record" <+: token then
    if recordForm token then .ok ()
    else .error (lit "Invalid record type for field: " ++ fieldName)
  else .ok ()

/-- Modelled from the spec: validation of a whole raw field map, failing on
the first offending field. -/
def validateFieldTypeTokens : List (Str × Str) → Except Str Unit
  | [] => .ok ()
  | (n, t) :: rest =>
      match checkFieldTypeToken n t with
      | .error e => .error e
      | .ok _ => validateFieldTypeTokens rest

/-! ## Helper lemmas -/

set_option maxRecDepth 4000

theorem trimRight_append_not_ws (xs : Str) (c : Char) (h : c.isWhitespace = false) :
    trimRight (xs ++ [c]) = xs ++ [c] := by
  simp [trimRight, List.dropWhile_cons, h]

theorem trimRight_append_ws (xs : Str) (c : Char) (h : c.isWhitespace = true) :
    trimRight (xs ++ [c]) = trimRight xs := by
  simp [trimRight, List.dropWhile_cons, h]

theorem not_suffix_concat (l suf : Str) (a b : Char) (hb : suf.getLast? = some b)
    (hne : b ≠ a) : ¬ (suf <:+ l ++ [a]) := by
  rintro ⟨u, hu⟩
  have hsne : suf ≠ [] := by
    intro h
    rw [h] at hb
    exact Option.noConfusion hb
  have h1 : (u ++ suf).getLast? = some b := by
    rw [List.getLast?_append_of_ne_nil u hsne, hb]
  rw [hu, List.getLast?_concat] at h1
  exact hne (Option.some.injEq _ _ ▸ h1).symm

/-- The type-text component of `buildFieldLine`, split out for reasoning;
`buildFieldLine_decompose` proves it agrees with the monolithic rendering. -/
def fieldTypeText (field : FieldDefinition) : Str :=
  let type0 := trimRight field.type
  let type1 := if field.optional then lit "option<" ++ trimRight type0 ++ lit ">" else type0
  let type2 :=
    match field.itemType with
    | some it => if field.type = lit "array" then lit "array<" ++ trimRight it.type ++ lit ">" else type1
    | none => type1
  let flexibleType := if field.flexible then lit "FLEXIBLE TYPE object" else trimRight type2
  if field.type = lit "object" then trimRight flexibleType else trimRight type2

/-- The reference-suffix component of `buildFieldLine`. -/
def refText (field : FieldDefinition) : Str :=
  trimRight
    (match field.refTable with
     | some r => if r.isEmpty then [] else lit " REFERENCES TABLE " ++ r
     | none => [])

theorem buildFieldLine_decompose (table name : Str) (field : FieldDefinition) :
    buildFieldLine table name field =
      lit "DEFINE FIELD " ++ name ++ lit " ON TABLE " ++ table ++ lit " TYPE " ++
        fieldTypeText field ++ refText field ++ lit ";" := rfl

theorem fieldTypeText_ignores_refTable (t : Str) (r : Option Str) (o : Bool)
    (i : Option FieldDefinition) (f : Bool) :
    fieldTypeText (.mk t r o i f) = fieldTypeText (.mk t none o i f) := rfl

/-! ## Claims about the filter query builder -/

/-- The claim C1: with namespace and database set, `buildQuery("SELECT")`
returns `SELECT * FROM <table>`, then ` WHERE <fragment>` iff the filter
sequence is non-empty, then ` ORDER BY <sortField>` iff a sort field is
set, then ` LIMIT <limitCount>` iff a limit is set (sort fields set via
`sort` are non-empty and limits set via `limit` are positive, which the
two side conditions record); and on the table `person` with filters
`age = 30` (default AND), `name = "John"` (OR), `status = "active"`
(default AND) the rendered statement is exactly
`SELECT * FROM person WHERE age = \x2730\x27 AND name = \x27John\x27 OR status = \x27active\x27`. -/
theorem c1_select_rendering :
    (∀ s : SurrealQuery, truthy s.nspace = true → truthy s.db_name = true →
      (∀ f, s.sortField = some f → f ≠ []) → (∀ n, s.limitCount = some n → n ≠ 0) →
      s.buildQuery .SELECT = .ok ((lit "SELECT * FROM " ++ s.table) ++
        (if s.filters = [] then []
         else cleanFilters (lit " WHERE " ++ joinWith (lit " ") s.filters)) ++
        (match s.sortField with
         | some f => lit " ORDER BY " ++ f
         | none => []) ++
        (match s.limitCount with
         | some n => lit " LIMIT " ++ intStr n
         | none => []))) ∧
    (newSurrealQuery (lit "person") none none >>= fun s0 =>
      s0.setNamespaceAndDb (lit "test_namespace") (lit "test_db") >>= fun s1 =>
      s1.filter (lit "age") (lit "30") .eq none >>= fun s2 =>
      s2.filter (lit "name") (lit "John") .eq (some .OR) >>= fun s3 =>
      s3.filter (lit "status") (lit "active") .eq none >>= fun s4 =>
      s4.buildQuery .SELECT) =
      .ok (lit "SELECT * FROM person WHERE age = \x2730\x27 AND name = \x27John\x27 OR status = \x27active\x27") := by
  constructor
  · intro s h1 h2 hs hl
    simp only [SurrealQuery.buildQuery, h1, h2, Bool.not_true, Bool.or_self, Bool.false_eq_true,
      if_false]
    congr 1
    have hfil : (if s.filters.length > 0 then
        cleanFilters (lit " WHERE " ++ joinWith (lit " ") s.filters) else []) =
        (if s.filters = [] then []
         else cleanFilters (lit " WHERE " ++ joinWith (lit " ") s.filters)) := by
      rcases s.filters with _ | ⟨x, xs⟩ <;> simp
    rw [hfil]
    congr 1
    · rcases hsf : s.sortField with _ | f
      · rfl
      · have hf := hs f hsf
        simp [List.isEmpty_iff, hf]
    · rcases hlc : s.limitCount with _ | n
      · rfl
      · have hn := hl n hlc
        simp [hn]
  · rfl

/-- Closed witness for `c1_select_rendering`: the general rendering rule
applied to a concrete state carrying filters, a sort field and a limit. -/
theorem c1_select_rendering_witness :
    SurrealQuery.buildQuery
      ⟨lit "person",
       [renderClause (lit "age") .eq (lit "30") none],
       some (lit "name"), some 10,
       some (lit "test_namespace"), some (lit "test_db"), none⟩ .SELECT =
      .ok ((lit "SELECT * FROM " ++ lit "person") ++
        (if ([renderClause (lit "age") .eq (lit "30") none] : List Str) = [] then []
         else cleanFilters (lit " WHERE " ++
          joinWith (lit " ") [renderClause (lit "age") .eq (lit "30") none])) ++
        (lit " ORDER BY " ++ lit "name") ++ (lit " LIMIT " ++ intStr 10)) := by
  exact c1_select_rendering.1
    ⟨lit "person", [renderClause (lit "age") .eq (lit "30") none],
     some (lit "name"), some 10, some (lit "test_namespace"), some (lit "test_db"), none⟩
    rfl rfl
    (fun f hf => by cases hf; decide)
    (fun n hn => by cases hn; decide)

/-- The claim C3: with namespace and database set, `buildQuery("CREATE")`
errors iff no data record was set, and with data set it returns exactly
`CREATE <table> CONTENT <j>` with `<j>` the compact JSON of the data
record in insertion order; the same raises-iff-no-data rule holds for
`buildQuery("UPDATE")`.  The concrete record
`\x7bname: "John Doe", age: 30\x7d` renders
`CREATE any CONTENT \x7b"name":"John Doe","age":30\x7d`. -/
theorem c3_create_update_data :
    (∀ s : SurrealQuery, truthy s.nspace = true → truthy s.db_name = true →
      ((∃ e, s.buildQuery .CREATE = .error e) ↔ s.data = none) ∧
      (∀ d, s.data = some d →
        s.buildQuery .CREATE = .ok (lit "CREATE " ++ s.table ++ lit " CONTENT " ++ jsonObj d)) ∧
      ((∃ e, s.buildQuery .UPDATE = .error e) ↔ s.data = none)) ∧
    SurrealQuery.buildQuery
      ⟨lit "any", [], none, none, some (lit "n"), some (lit "d"),
       some [(lit "name", .str (lit "John Doe")), (lit "age", .num 30)]⟩ .CREATE =
      .ok (lit "CREATE any CONTENT \x7b\"name\":\"John Doe\",\"age\":30\x7d") := by
  constructor
  · intro s h1 h2
    refine ⟨?_, ?_, ?_⟩
    · simp only [SurrealQuery.buildQuery, h1, h2, Bool.not_true, Bool.or_self,
        Bool.false_eq_true, if_false]
      rcases hd : s.data with _ | d
      · exact ⟨fun _ => rfl, fun _ => ⟨_, rfl⟩⟩
      · exact ⟨fun ⟨e, he⟩ => Except.noConfusion he, fun h => Option.noConfusion h⟩
    · intro d hd
      simp only [SurrealQuery.buildQuery, h1, h2, Bool.not_true, Bool.or_self,
        Bool.false_eq_true, if_false, hd]
    · simp only [SurrealQuery.buildQuery, h1, h2, Bool.not_true, Bool.or_self,
        Bool.false_eq_true, if_false]
      rcases hd : s.data with _ | d
      · exact ⟨fun _ => rfl, fun _ => ⟨_, rfl⟩⟩
      · exact ⟨fun ⟨e, he⟩ => Except.noConfusion he, fun h => Option.noConfusion h⟩
  · rfl

/-- Closed witness for `c3_create_update_data`: the raises-iff-no-data rule
applied at a concrete state with no data. -/
theorem c3_create_update_data_witness :
    (∃ e, SurrealQuery.buildQuery
      ⟨lit "any", [], none, none, some (lit "n"), some (lit "d"), none⟩ .CREATE = .error e) ↔
    (⟨lit "any", [], none, none, some (lit "n"), some (lit "d"), none⟩ : SurrealQuery).data = none :=
  (c3_create_update_data.1
    ⟨lit "any", [], none, none, some (lit "n"), some (lit "d"), none⟩ rfl rfl).1

/-- The claim C4: `buildQuery` output for CREATE, UPDATE and DELETE is
independent of `sortField` and `limitCount`, CREATE output is additionally
independent of the filter sequence (so those operations never render
ORDER BY / LIMIT segments and CREATE never renders WHERE), and
`buildQuery("DELETE")` returns exactly `DELETE FROM <table>` extended by
the WHERE fragment iff filters are non-empty. -/
theorem c4_no_sort_limit :
    (∀ (s : SurrealQuery) (x : Option Str) (y : Option Int) (op : Operation),
      op ≠ .SELECT →
      SurrealQuery.buildQuery { s with sortField := x, limitCount := y } op = s.buildQuery op) ∧
    (∀ (s : SurrealQuery) (fs : List Str),
      SurrealQuery.buildQuery { s with filters := fs } .CREATE = s.buildQuery .CREATE) ∧
    (∀ s : SurrealQuery, truthy s.nspace = true → truthy s.db_name = true →
      s.buildQuery .DELETE = .ok (lit "DELETE FROM " ++ s.table ++
        (if s.filters = [] then []
         else cleanFilters (lit " WHERE " ++ joinWith (lit " ") s.filters)))) := by
  refine ⟨?_, ?_, ?_⟩
  · intro s x y op hop
    cases op with
    | SELECT => exact absurd rfl hop
    | CREATE => rfl
    | UPDATE => rfl
    | DELETE => rfl
  · intro s fs
    simp only [SurrealQuery.buildQuery]
  · intro s h1 h2
    simp only [SurrealQuery.buildQuery, h1, h2, Bool.not_true, Bool.or_self,
      Bool.false_eq_true, if_false]
    congr 2
    rcases s.filters with _ | ⟨x, xs⟩ <;> simp

/-- Closed witness for `c4_no_sort_limit`: sort and limit are ignored by a
concrete DELETE render. -/
theorem c4_no_sort_limit_witness :
    SurrealQuery.buildQuery
      ⟨lit "person", [], some (lit "name"), some 10, some (lit "n"), some (lit "d"), none⟩
      .DELETE =
    SurrealQuery.buildQuery
      ⟨lit "person", [], none, none, some (lit "n"), some (lit "d"), none⟩ .DELETE :=
  c4_no_sort_limit.1
    ⟨lit "person", [], none, none, some (lit "n"), some (lit "d"), none⟩
    (some (lit "name")) (some 10) .DELETE (fun h => Operation.noConfusion h)

/-- The claim C9: `filter` interpolates the value characters verbatim
between two single quotes, with no escaping; consequently a value
containing a single-quote character yields a rendered clause with
unbalanced quotes (on the concrete value `O\x27Brien` the whole rendered
SELECT text carries three single-quote characters, an odd number). -/
theorem c9_no_escaping :
    (∀ (s : SurrealQuery) (field value : Str) (op : FilterOperator) (lo : Option Conj),
      field ≠ [] →
      s.filter field value op lo = .ok { s with filters := s.filters ++
        [field ++ lit " " ++ op.render ++ lit " \x27" ++ value ++ lit "\x27 " ++
          (match lo with | some c => c.render | none => lit "AND")] }) ∧
    SurrealQuery.buildQuery
      ⟨lit "person", [renderClause (lit "name") .eq (lit "O\x27Brien") none],
       none, none, some (lit "n"), some (lit "d"), none⟩ .SELECT =
      .ok (lit "SELECT * FROM person WHERE name = \x27O\x27Brien\x27") ∧
    (lit "SELECT * FROM person WHERE name = \x27O\x27Brien\x27").count '\x27' = 3 := by
  refine ⟨?_, rfl, by decide⟩
  intro s field value op lo hf
  simp only [SurrealQuery.filter, List.isEmpty_iff, hf, if_false, renderClause]

/-- Closed witness for `c9_no_escaping`: the verbatim interpolation applied
at a concrete clause whose value contains a single quote. -/
theorem c9_no_escaping_witness :
    SurrealQuery.filter
      ⟨lit "person", [], none, none, none, none, none⟩
      (lit "name") (lit "O\x27Brien") .eq none =
    .ok { (⟨lit "person", [], none, none, none, none, none⟩ : SurrealQuery) with
      filters := [] ++
        [lit "name" ++ lit " " ++ FilterOperator.eq.render ++ lit " \x27" ++ lit "O\x27Brien" ++
          lit "\x27 " ++ lit "AND"] } :=
  c9_no_escaping.1 ⟨lit "person", [], none, none, none, none, none⟩
    (lit "name") (lit "O\x27Brien") .eq none (by decide)

/-- The claim C10: the constructor stores the `namespace`/`db_name` params
with no validation (an empty-string value is accepted), the resulting state
behaves under `buildQuery` exactly like one where they were never set, and
the validation error surfaces only at `buildQuery` / `getQueryPayload`. -/
theorem c10_constructor_no_validation :
    (∀ (t : Str) (npar dpar : Option Str), t ≠ [] →
      newSurrealQuery t npar dpar = .ok ⟨t, [], none, none, npar, dpar, none⟩) ∧
    (∀ op : Operation,
      SurrealQuery.buildQuery ⟨lit "person", [], none, none, some [], some [], none⟩ op =
      SurrealQuery.buildQuery ⟨lit "person", [], none, none, none, none, none⟩ op) ∧
    (∀ op : Operation,
      SurrealQuery.buildQuery ⟨lit "person", [], none, none, some [], some [], none⟩ op =
      .error (lit "Namespace and Database must be provided before building a query")) ∧
    (∀ op : Operation,
      SurrealQuery.getQueryPayload ⟨lit "person", [], none, none, some [], some [], none⟩ op =
      .error (lit "Namespace and Database must be provided before building a query")) := by
  refine ⟨?_, ?_, ?_, ?_⟩
  · intro t npar dpar ht
    simp only [newSurrealQuery, List.isEmpty_iff, ht, if_false]
  · intro op
    cases op <;> rfl
  · intro op
    cases op <;> rfl
  · intro op
    cases op <;> rfl

/-- Closed witness for `c10_constructor_no_validation`: constructing with
empty-string namespace and database parameters succeeds. -/
theorem c10_constructor_no_validation_witness :
    newSurrealQuery (lit "person") (some []) (some []) =
      .ok ⟨lit "person", [], none, none, some [], some [], none⟩ :=
  c10_constructor_no_validation.1 (lit "person") (some []) (some []) (by decide)

/-- A structured filter clause: the arguments of one `filter` call. -/
structure FilterSpec where
  field : Str
  value : Str
  operator : FilterOperator
  conj : Option Conj

/-- The clause string a `FilterSpec` contributes to the filter list. -/
def FilterSpec.render (c : FilterSpec) : Str :=
  renderClause c.field c.operator c.value c.conj

theorem renderClause_shape (f v : Str) (op : FilterOperator) (lo : Option Conj) :
    ∃ p tok, (tok = lit "AND" ∨ tok = lit "OR") ∧
      renderClause f op v lo = p ++ ['\x27', ' '] ++ tok := by
  rcases lo with _ | c
  · exact ⟨f ++ lit " " ++ op.render ++ [' ', '\x27'] ++ v, lit "AND", Or.inl rfl, rfl⟩
  · cases c
    · exact ⟨f ++ lit " " ++ op.render ++ [' ', '\x27'] ++ v, lit "AND", Or.inl rfl, rfl⟩
    · exact ⟨f ++ lit " " ++ op.render ++ [' ', '\x27'] ++ v, lit "OR", Or.inr rfl, rfl⟩

theorem joinWith_shape (l : List Str) (hne : l ≠ [])
    (hall : ∀ x ∈ l, ∃ p tok, (tok = lit "AND" ∨ tok = lit "OR") ∧
      x = p ++ ['\x27', ' '] ++ tok) :
    ∃ P tok, (tok = lit "AND" ∨ tok = lit "OR") ∧
      joinWith (lit " ") l = P ++ ['\x27', ' '] ++ tok := by
  induction l with
  | nil => exact absurd rfl hne
  | cons x xs ih =>
    cases xs with
    | nil =>
      obtain ⟨p, tok, htok, hx⟩ := hall x (List.mem_cons_self x [])
      exact ⟨p, tok, htok, hx⟩
    | cons y ys =>
      obtain ⟨P, tok, htok, hj⟩ :=
        ih (List.cons_ne_nil y ys) (fun z hz => hall z (List.mem_cons_of_mem x hz))
      refine ⟨x ++ lit " " ++ P, tok, htok, ?_⟩
      show x ++ lit " " ++ joinWith (lit " ") (y :: ys) = _
      rw [hj]
      simp [List.append_assoc]

theorem cleanFilters_strip (P : Str) (tok : Str) (h : tok = lit "AND" ∨ tok = lit "OR") :
    cleanFilters (P ++ ['\x27', ' '] ++ tok) = P ++ ['\x27'] := by
  have hws : (' ' : Char).isWhitespace = true := by decide
  have hq : ('\x27' : Char).isWhitespace = false := by decide
  have hsplit : P ++ ['\x27', ' '] = (P ++ ['\x27']) ++ [' '] := by simp
  rcases h with h | h <;> subst h
  · unfold cleanFilters
    rw [if_pos (List.suffix_append _ _)]
    have hlen : ((P ++ ['\x27', ' ']) ++ lit "AND").length - 3 = (P ++ ['\x27', ' ']).length := by
      have h3 : (lit "AND").length = 3 := rfl
      simp [List.length_append, h3]
    rw [hlen, List.take_left, hsplit, trimRight_append_ws _ _ hws,
      trimRight_append_not_ws _ _ hq]
  · unfold cleanFilters
    have hre : (P ++ ['\x27', ' ']) ++ lit "OR" = (P ++ ['\x27', ' ', 'O']) ++ ['R'] := by
      have h2 : lit "OR" = ['O', 'R'] := rfl
      rw [h2]
      simp
    rw [if_neg (hre ▸ not_suffix_concat _ _ 'R' 'D' (by decide) (by decide)),
      if_pos (List.suffix_append _ _)]
    have hlen : ((P ++ ['\x27', ' ']) ++ lit "OR").length - 2 = (P ++ ['\x27', ' ']).length := by
      have h2 : (lit "OR").length = 2 := rfl
      simp [List.length_append, h2]
    rw [hlen, List.take_left, hsplit, trimRight_append_ws _ _ hws,
      trimRight_append_not_ws _ _ hq]

/-- The claim C2: for every non-empty sequence of filter clauses (arbitrary
fields, values, operators and conjunction choices), the rendered WHERE
fragment never ends with a bare `AND`/`OR` token: the final conjunction
token is stripped at the very end of the fragment only, and the rest of
the WHERE text is exactly preserved (the fragment followed by a space and
the stripped token reconstitutes the joined text).  The fragment below is
the one `buildQuery` appends for SELECT, UPDATE and DELETE. -/
theorem c2_where_fragment_never_dangles (cs : List FilterSpec) (h : cs ≠ []) :
    ∃ tok : Str, (tok = lit "AND" ∨ tok = lit "OR") ∧
      ¬ (lit "AND" <:+
        cleanFilters (lit " WHERE " ++ joinWith (lit " ") (cs.map FilterSpec.render))) ∧
      ¬ (lit "OR" <:+
        cleanFilters (lit " WHERE " ++ joinWith (lit " ") (cs.map FilterSpec.render))) ∧
      cleanFilters (lit " WHERE " ++ joinWith (lit " ") (cs.map FilterSpec.render)) ++
          lit " " ++ tok =
        lit " WHERE " ++ joinWith (lit " ") (cs.map FilterSpec.render) := by
  obtain ⟨P, tok, htok, hj⟩ := joinWith_shape (cs.map FilterSpec.render)
    (by simpa using h)
    (by
      rintro x hx
      obtain ⟨c, _, rfl⟩ := List.mem_map.1 hx
      exact renderClause_shape c.field c.value c.operator c.conj)
  have hassoc : lit " WHERE " ++ ((P ++ ['\x27', ' ']) ++ tok) =
      ((lit " WHERE " ++ P) ++ ['\x27', ' ']) ++ tok := by
    simp [List.append_assoc]
  refine ⟨tok, htok, ?_, ?_, ?_⟩ <;> rw [hj, hassoc, cleanFilters_strip _ _ htok]
  · exact not_suffix_concat _ _ '\x27' 'D' (by decide) (by decide)
  · exact not_suffix_concat _ _ '\x27' 'R' (by decide) (by decide)
  · have hsp : lit " " = [' '] := rfl
    rw [hsp]
    simp [List.append_assoc]

/-- Closed witness for `c2_where_fragment_never_dangles`: the fragment of a
single default-conjunction clause. -/
theorem c2_where_fragment_never_dangles_witness :
    ∃ tok : Str, (tok = lit "AND" ∨ tok = lit "OR") ∧
      ¬ (lit "AND" <:+ cleanFilters (lit " WHERE " ++ joinWith (lit " ")
        (([⟨lit "age", lit "30", .eq, none⟩] : List FilterSpec).map FilterSpec.render))) ∧
      ¬ (lit "OR" <:+ cleanFilters (lit " WHERE " ++ joinWith (lit " ")
        (([⟨lit "age", lit "30", .eq, none⟩] : List FilterSpec).map FilterSpec.render))) ∧
      cleanFilters (lit " WHERE " ++ joinWith (lit " ")
          (([⟨lit "age", lit "30", .eq, none⟩] : List FilterSpec).map FilterSpec.render)) ++
          lit " " ++ tok =
        lit " WHERE " ++ joinWith (lit " ")
          (([⟨lit "age", lit "30", .eq, none⟩] : List FilterSpec).map FilterSpec.render) :=
  c2_where_fragment_never_dangles [⟨lit "age", lit "30", .eq, none⟩] (List.cons_ne_nil _ _)

/-! ## Claims about the schema definition builder -/

/-- Counterexample to the claim C5: the field `products` built as
`optional(array(id))` is emitted with type text `array<id>` — the
`option<...>` wrapping is overwritten by the array rendering — and an
optional flexible object is emitted as `FLEXIBLE TYPE object` with no
`option<...>` wrapping, contradicting the claimed
`option<array<id>>` / `option<FLEXIBLE TYPE object>` renderings. -/
theorem c5_optional_wrapping_cex :
    buildFieldLine (lit "users") (lit "products")
        (fieldType.optional (fieldType.array (fieldType.id none))) =
      lit "DEFINE FIELD products ON TABLE users TYPE array<id>;" ∧
    buildFieldLine (lit "users") (lit "products")
        (fieldType.optional (fieldType.array (fieldType.id none))) ≠
      lit "DEFINE FIELD products ON TABLE users TYPE option<array<id>>;" ∧
    buildFieldLine (lit "users") (lit "metadata")
        (fieldType.optional (fieldType.object true)) =
      lit "DEFINE FIELD metadata ON TABLE users TYPE FLEXIBLE TYPE object;" ∧
    buildFieldLine (lit "users") (lit "metadata")
        (fieldType.optional (fieldType.object true)) ≠
      lit "DEFINE FIELD metadata ON TABLE users TYPE option<FLEXIBLE TYPE object>;" := by
  refine ⟨by decide, by decide, by decide, by decide⟩

/-- The claim C5 as amended: the optional wrapping is applied to the raw
base tag before array/object rendering, so it is overwritten by the
`array<...>` rendering when the field is an array with an item type, and
replaced by `FLEXIBLE TYPE object` when the field is a flexible object;
it survives only otherwise (e.g. `option<object>` for a non-flexible
optional object and `option<string>` for an optional string). -/
theorem c5_optional_wrapping_amended :
    (∀ (table name : Str) (it : FieldDefinition),
      buildFieldLine table name (fieldType.optional (fieldType.array it)) =
        lit "DEFINE FIELD " ++ name ++ lit " ON TABLE " ++ table ++ lit " TYPE " ++
          (lit "array<" ++ trimRight it.type ++ lit ">") ++ lit ";") ∧
    (∀ table name : Str,
      buildFieldLine table name (fieldType.optional (fieldType.object true)) =
        lit "DEFINE FIELD " ++ name ++ lit " ON TABLE " ++ table ++ lit " TYPE " ++
          lit "FLEXIBLE TYPE object" ++ lit ";") ∧
    (∀ table name : Str,
      buildFieldLine table name (fieldType.optional (fieldType.object false)) =
        lit "DEFINE FIELD " ++ name ++ lit " ON TABLE " ++ table ++ lit " TYPE " ++
          lit "option<object>" ++ lit ";") ∧
    (∀ table name : Str,
      buildFieldLine table name (fieldType.optional fieldType.string) =
        lit "DEFINE FIELD " ++ name ++ lit " ON TABLE " ++ table ++ lit " TYPE " ++
          lit "option<string>" ++ lit ";") := by
  refine ⟨?_, ?_, ?_, ?_⟩
  · intro table name it
    rw [buildFieldLine_decompose]
    have href : refText (fieldType.optional (fieldType.array it)) = [] := rfl
    have htype : fieldTypeText (fieldType.optional (fieldType.array it)) =
        lit "array<" ++ trimRight it.type ++ lit ">" := by
      show trimRight ((lit "array<" ++ trimRight it.type) ++ ['>']) =
        (lit "array<" ++ trimRight it.type) ++ ['>']
      exact trimRight_append_not_ws _ '>' (by decide)
    rw [htype, href]
    simp [List.append_assoc]
  · intro table name
    rw [buildFieldLine_decompose]
    have href : refText (fieldType.optional (fieldType.object true)) = [] := rfl
    have htype : fieldTypeText (fieldType.optional (fieldType.object true)) =
        lit "FLEXIBLE TYPE object" := by decide
    rw [htype, href]
    simp [List.append_assoc]
  · intro table name
    rw [buildFieldLine_decompose]
    have href : refText (fieldType.optional (fieldType.object false)) = [] := rfl
    have htype : fieldTypeText (fieldType.optional (fieldType.object false)) =
        lit "option<object>" := by decide
    rw [htype, href]
    simp [List.append_assoc]
  · intro table name
    rw [buildFieldLine_decompose]
    have href : refText (fieldType.optional fieldType.string) = [] := rfl
    have htype : fieldTypeText (fieldType.optional fieldType.string) =
        lit "option<string>" := by decide
    rw [htype, href]
    simp [List.append_assoc]

/-- Counterexample to the claim C6: a field descriptor with base tag
`string` that carries a reference-table name is rendered WITH the
` REFERENCES TABLE ...` suffix, although the claim says the suffix is
emitted only for `id` fields. -/
theorem c6_ref_suffix_cex :
    buildFieldLine (lit "t") (lit "employer")
        (.mk (lit "string") (some (lit "companies")) false none false) =
      lit "DEFINE FIELD employer ON TABLE t TYPE string REFERENCES TABLE companies;" ∧
    buildFieldLine (lit "t") (lit "employer")
        (.mk (lit "string") (some (lit "companies")) false none false) ≠
      lit "DEFINE FIELD employer ON TABLE t TYPE string;" := by
  refine ⟨by decide, by decide⟩

/-- The claim C6 as amended: the ` REFERENCES TABLE <refTable>` suffix is
controlled solely by the truthiness of the `refTable` member — it is
appended for every field carrying a non-empty reference-table name,
whatever the base type tag, and omitted when `refTable` is absent or
empty; the type text itself never depends on `refTable`. -/
theorem c6_ref_suffix_amended :
    (∀ (table name type : Str) (o fl : Bool) (it : Option FieldDefinition) (r : Str),
      r ≠ [] →
      buildFieldLine table name (.mk type (some r) o it fl) =
        lit "DEFINE FIELD " ++ name ++ lit " ON TABLE " ++ table ++ lit " TYPE " ++
          fieldTypeText (.mk type none o it fl) ++
          trimRight (lit " REFERENCES TABLE " ++ r) ++ lit ";") ∧
    (∀ (table name type : Str) (o fl : Bool) (it : Option FieldDefinition),
      buildFieldLine table name (.mk type none o it fl) =
        lit "DEFINE FIELD " ++ name ++ lit " ON TABLE " ++ table ++ lit " TYPE " ++
          fieldTypeText (.mk type none o it fl) ++ lit ";") ∧
    (∀ (table name type : Str) (o fl : Bool) (it : Option FieldDefinition),
      buildFieldLine table name (.mk type (some []) o it fl) =
        buildFieldLine table name (.mk type none o it fl)) := by
  refine ⟨?_, ?_, ?_⟩
  · intro table name type o fl it r hr
    rw [buildFieldLine_decompose, fieldTypeText_ignores_refTable]
    have h0 : r.isEmpty = false := by
      cases r with
      | nil => exact absurd rfl hr
      | cons a as => rfl
    have hre : refText (.mk type (some r) o it fl) =
        trimRight (lit " REFERENCES TABLE " ++ r) := by
      simp [refText, FieldDefinition.refTable, h0]
    rw [hre]
  · intro table name type o fl it
    rw [buildFieldLine_decompose]
    have hre : refText (.mk type none o it fl) = [] := rfl
    rw [hre]
    simp [List.append_assoc]
  · intro table name type o fl it
    rfl

/-- Closed witness for `c6_ref_suffix_amended`: the suffix rule applied to
a concrete non-id descriptor carrying a reference-table name. -/
theorem c6_ref_suffix_amended_witness :
    buildFieldLine (lit "t") (lit "employer")
        (.mk (lit "string") (some (lit "companies")) false none false) =
      lit "DEFINE FIELD " ++ lit "employer" ++ lit " ON TABLE " ++ lit "t" ++ lit " TYPE " ++
        fieldTypeText (.mk (lit "string") none false none false) ++
        trimRight (lit " REFERENCES TABLE " ++ lit "companies") ++ lit ";" :=
  c6_ref_suffix_amended.1 (lit "t") (lit "employer") (lit "string") false false none
    (lit "companies") (by decide)

/-- The claim C7 (string-literal-typed builder variant, modelled from the
spec): a raw type token beginning with `record` passes validation iff it
matches exactly `record(<identifier>)`, and otherwise yields a validation
error naming the offending field; in particular a schema containing
`company: "record()"` fails with an error naming `company`. -/
theorem c7_record_token_validation :
    (∀ name token : Str, lit "record" <+: token →
      ((checkFieldTypeToken name token = .ok ()) ↔ recordForm token = true)) ∧
    (∀ name token : Str, lit "record" <+: token → recordForm token = false →
      checkFieldTypeToken name token =
        .error (lit "Invalid record type for field: " ++ name)) ∧
    validateFieldTypeTokens [(lit "company", lit "record()")] =
      .error (lit "Invalid record type for field: " ++ lit "company") := by
  refine ⟨?_, ?_, by rfl⟩
  · intro name token hpre
    unfold checkFieldTypeToken
    rw [if_pos hpre]
    cases hr : recordForm token with
    | true => simp [hr]
    | false =>
      simp only [hr, Bool.false_eq_true, if_false]
      exact ⟨fun he => Except.noConfusion he, False.elim⟩
  · intro name token hpre hr
    unfold checkFieldTypeToken
    rw [if_pos hpre]
    simp [hr]

/-- Closed witness for `c7_record_token_validation`: the malformed token
`record()` on the field `company` fails with an error naming `company`. -/
theorem c7_record_token_validation_witness :
    checkFieldTypeToken (lit "company") (lit "record()") =
      .error (lit "Invalid record type for field: " ++ lit "company") :=
  c7_record_token_validation.2.1 (lit "company") (lit "record()")
    (by decide) (by decide)

/-- Counterexample to the claim C8: adding an index with an empty name and
an empty field list raises no error — the `DEFINE INDEX` line (with an
empty FIELDS clause) is recorded on the builder. -/
theorem c8_index_validation_cex :
    ((defineSchema (lit "users") .SCHEMALESS []).index [] (.many []) false).indexes =
      [lit "DEFINE INDEX  ON TABLE users FIELDS ;"] := by decide

/-- The claim C8 as amended: `index` validates nothing — for every builder
and every argument combination (including empty names and empty field
lists) it raises no error and appends exactly one `DEFINE INDEX` line,
leaving the field lines untouched. -/
theorem c8_index_no_validation :
    ∀ (b : TableBuilder) (indexName : Str) (fields : IndexFieldsArg) (u : Bool),
      (b.index indexName fields u).indexes =
        b.indexes ++ [lit "DEFINE INDEX " ++ indexName ++ lit " ON TABLE " ++ b.table ++
          lit " FIELDS " ++
          (match fields with
           | .many l => joinWith (lit ", ") l
           | .one s => trimRight s) ++
          (if u then lit " UNIQUE" else []) ++ lit ";"] ∧
      (b.index indexName fields u).fields = b.fields ∧
      (b.index indexName fields u).table = b.table := by
  intro b indexName fields u
  exact ⟨rfl, rfl, rfl⟩
